import Mathlib

/-
Verification development for the ReadForMe document-intelligence dashboard.
The definitions below are a shallow embedding of the analysis-queue core:
the retry wrapper and the adapter entry points in services/geminiService.ts,
and the queue controller logic in App.tsx. External model calls are
represented by oracle parameters (one outcome per invocation attempt);
everything local to the repository is translated directly.
-/

namespace ReadForMe

/-- Status of a file in the processing queue (types.ts, AnalysisStatus). -/
inductive AnalysisStatus
  | PENDING
  | PROCESSING
  | COMPLETED
  | ERROR
  deriving DecidableEq, Repr

/-- Thematic classification (types.ts, ThematicStatus). -/
inductive ThematicStatus
  | UNKNOWN
  | ALIGNED
  | OUTLIER
  deriving DecidableEq, Repr

/-- Bibliographic metadata attached to an analysis result (types.ts, CitationData).
The source field named type (the literal union of article kinds) is modelled
as the string field ctype. -/
structure CitationData where
  title : String
  journal : Option String
  year : Option String
  authors : List String
  ctype : String
  mainTopic : String
  deriving DecidableEq, Repr

/-- Structured result returned for a single file analysis (types.ts, DocumentAnalysis). -/
structure DocumentAnalysis where
  title : String
  summary : String
  keyPoints : List String
  citationData : CitationData
  thematicTags : List String
  deriving DecidableEq, Repr

/-- The browser File payload: only its name and media type matter to this core. -/
structure RawFile where
  name : String
  mimeType : String
  deriving DecidableEq, Repr

/-- One uploaded document record (types.ts, AnalyzedFile). -/
structure AnalyzedFile where
  id : String
  file : RawFile
  status : AnalysisStatus
  result : Option DocumentAnalysis
  thematicStatus : ThematicStatus
  outlierReason : Option String
  error : Option String
  deriving DecidableEq, Repr

/-- Chat role (types.ts, ChatMessage.role). -/
inductive Role
  | user
  | ai
  deriving DecidableEq, Repr

/-- One chat turn (types.ts, ChatMessage); optional payloads not used by the
queue core are omitted. -/
structure ChatMessage where
  id : String
  role : Role
  content : String
  timestamp : Nat
  deriving DecidableEq, Repr

/-- A project workspace (types.ts, Project). -/
structure Project where
  id : String
  nickname : String
  createdAt : Nat
  files : List AnalyzedFile
  chatHistory : List ChatMessage
  themeDescription : Option String
  deriving DecidableEq, Repr

/-- The shape of a failure thrown by the provider client: optional numeric
status, optional numeric code, optional message string (geminiService.ts
inspects exactly these fields). -/
structure GError where
  status : Option Nat
  code : Option Nat
  message : Option String
  deriving DecidableEq, Repr

/-- Boolean prefix test on character lists. -/
def isPrefixSub : List Char → List Char → Bool
  | [], _ => true
  | _ :: _, [] => false
  | a :: as, b :: bs => a == b && isPrefixSub as bs

/-- Boolean infix test on character lists. -/
def containsSubAux (pat : List Char) : List Char → Bool
  | [] => isPrefixSub pat []
  | c :: rest => isPrefixSub pat (c :: rest) || containsSubAux pat rest

/-- Substring test used to model the JavaScript String.includes calls. -/
def containsSub (s pat : String) : Bool :=
  containsSubAux pat.toList s.toList

/-- The isQuotaError test of retryWithBackoff (geminiService.ts lines 57-60). -/
def isQuotaError (e : GError) : Bool :=
  e.status == some 429 || e.code == some 429 ||
    (match e.message with
     | some m => containsSub m "429" || containsSub m "quota" || containsSub m "RESOURCE_EXHAUSTED"
     | none => false)

/-- The isServerOverload test of retryWithBackoff (geminiService.ts line 62). -/
def isServerOverload (e : GError) : Bool :=
  e.status == some 503 ||
    (match e.message with
     | some m => containsSub m "503"
     | none => false)

/-- The combined transience test guarding a retry (geminiService.ts line 64). -/
def isTransient (e : GError) : Bool :=
  isQuotaError e || isServerOverload e

/-- retryWithBackoff (geminiService.ts lines 49-71). The asynchronous
operation is modelled as a function from the attempt index to an outcome.
The return value carries the final outcome, the number of invocations of
the operation, and the list of delays waited (in order). The source
recursion retryWithBackoff(operation, retries - 1, delay * 2) maps to the
recursive call on the predecessor of the retry budget; the source condition
(isQuotaError or isServerOverload) and retries greater than zero maps to the
pattern match on the pair of the budget and the transience test. -/
def retryWithBackoff {α : Type} (op : Nat → Except GError α) :
    Nat → Nat → Nat → Except GError α × Nat × List Nat
  | 0, _, attempt =>
    match op attempt with
    | Except.ok v => (Except.ok v, 1, [])
    | Except.error e => (Except.error e, 1, [])
  | r + 1, delay, attempt =>
    match op attempt with
    | Except.ok v => (Except.ok v, 1, [])
    | Except.error e =>
      if isTransient e then
        let rest := retryWithBackoff op r (delay * 2) (attempt + 1)
        (rest.1, rest.2.1 + 1, delay :: rest.2.2)
      else (Except.error e, 1, [])

/-- One entry of the outlier list returned by the detector (geminiService.ts,
outlierSchema). -/
structure OutlierEntry where
  filename : String
  reason : String
  deriving DecidableEq, Repr

/-- The detector result: dominant theme plus outlier list (geminiService.ts,
detectOutliers return type). -/
structure OutlierResult where
  mainTheme : String
  outliers : List OutlierEntry
  deriving DecidableEq, Repr

/-- detectOutliers (geminiService.ts lines 104-132). The external model call
inside the retry wrapper is the oracle parameter; the summaries string and
prompt text are provider input and stay behind that boundary. The second
component counts provider invocations. -/
def detectOutliers (files : List AnalyzedFile)
    (oracle : Nat → Except GError OutlierResult) :
    Except GError OutlierResult × Nat :=
  if files.length < 3 then
    (Except.ok { mainTheme := "Insufficient files for cohesion check", outliers := [] }, 0)
  else
    let r := retryWithBackoff oracle 5 2000 0
    (r.1, r.2.1)

/-- The eligibility filter of askMike (geminiService.ts line 139): status
COMPLETED, result present, thematic status not OUTLIER. -/
def eligibleForMike (f : AnalyzedFile) : Bool :=
  f.status == AnalysisStatus.COMPLETED && f.result.isSome &&
    f.thematicStatus != ThematicStatus.OUTLIER

/-- askMike (geminiService.ts lines 138-199). The prompt built from the
question, the eligible files and the last four chat turns is provider input;
the provider call plus local response postprocessing is the oracle. The
second component counts provider invocations. -/
def askMike (question : String) (files : List AnalyzedFile)
    (previousChat : List ChatMessage)
    (oracle : Nat → Except GError String) :
    Except GError String × Nat :=
  let completedFiles := files.filter eligibleForMike
  if completedFiles.length == 0 then
    (Except.ok "I need valid, non-outlier documents to analyze before I can answer.", 0)
  else
    let r := retryWithBackoff oracle 5 2000 0
    (r.1, r.2.1)

/-- The structured report produced for PDF export (geminiService.ts,
generateReportStructure return type). -/
structure ReportStructure where
  background : String
  methods : String
  results : String
  discussion : String
  references : List String
  deriving DecidableEq, Repr

/-- generateReportStructure (geminiService.ts lines 205-244). The oracle
receives the conversation string the source embeds in its prompt, namely the
contents of the non-user messages joined by blank lines, so the provider sees
no other part of the history. The second component counts provider
invocations. -/
def generateReportStructure (chatHistory : List ChatMessage)
    (oracle : String → Nat → Except GError ReportStructure) :
    Except GError ReportStructure × Nat :=
  if chatHistory.length == 0 then
    (Except.error { status := none, code := none, message := some "No chat history to synthesize." }, 0)
  else
    let conversation := String.intercalate "\n\n"
      ((chatHistory.filter (fun m => m.role != Role.user)).map (fun m => m.content))
    let r := retryWithBackoff (oracle conversation) 5 2000 0
    (r.1, r.2.1)

/-- The record built for each uploaded PDF (App.tsx lines 155-160). -/
def mkUploadEntry (id : String) (f : RawFile) : AnalyzedFile :=
  { id := id
    file := f
    status := AnalysisStatus.PENDING
    result := none
    thematicStatus := ThematicStatus.UNKNOWN
    outlierReason := none
    error := none }

/-- One fresh id per uploaded file: the uuid supply is indexed by position in
the filtered batch, mirroring the per-element uuidv4 calls. -/
def buildUploads (uuid : Nat → String) : Nat → List RawFile → List AnalyzedFile
  | _, [] => []
  | i, f :: rest => mkUploadEntry (uuid i) f :: buildUploads uuid (i + 1) rest

/-- handleFileUpload (App.tsx lines 151-171): keep only files whose media
type is application/pdf, append one PENDING and UNKNOWN entry per kept file,
and reset the theme description. -/
def handleFileUpload (uuid : Nat → String) (project : Project)
    (uploaded : List RawFile) : Project :=
  let pdfs := uploaded.filter (fun f => f.mimeType == "application/pdf")
  let newFiles := buildUploads uuid 0 pdfs
  { project with files := project.files ++ newFiles, themeDescription := none }

/-- updateFileStatus (App.tsx lines 115-128): rewrite the file with the given
id, overwriting its status together with the result and error fields. -/
def updateFileStatus (p : Project) (fileId : String) (status : AnalysisStatus)
    (result : Option DocumentAnalysis) (error : Option String) : Project :=
  { p with files := p.files.map (fun f =>
      if f.id == fileId then { f with status := status, result := result, error := error }
      else f) }

/-- The per-file stamping step of runToughScreen (App.tsx lines 138-144):
the first outlier entry whose filename equals the file name marks the file
OUTLIER with that reason, otherwise the file is marked ALIGNED. -/
def stampFile (outliers : List OutlierEntry) (f : AnalyzedFile) : AnalyzedFile :=
  match outliers.find? (fun o => o.filename == f.file.name) with
  | some o => { f with thematicStatus := ThematicStatus.OUTLIER, outlierReason := some o.reason }
  | none => { f with thematicStatus := ThematicStatus.ALIGNED }

/-- runToughScreen (App.tsx lines 134-149): run the detector over the
COMPLETED files, stamp every file of the project, and record the main theme.
A rejected detector call leaves the project untouched (the mapping code
after the await never runs). -/
def runToughScreen (project : Project)
    (oracle : Nat → Except GError OutlierResult) : Except GError Project :=
  let completed := project.files.filter (fun f => f.status == AnalysisStatus.COMPLETED)
  match (detectOutliers completed oracle).1 with
  | Except.error e => Except.error e
  | Except.ok res =>
    Except.ok { project with
      files := project.files.map (stampFile res.outliers)
      themeDescription := some res.mainTheme }

/-- Whether a document-analysis call is in flight, and for which file id;
this records the pendingFile closure held across the await in processQueue. -/
inductive Phase
  | idle
  | inFlight (fileId : String)
  deriving DecidableEq, Repr

/-- Controller state: the active project, the isProcessingQueue flag, and the
in-flight phase (App.tsx lines 26-27 plus the processQueue closure). -/
structure QState where
  project : Project
  busy : Bool
  phase : Phase
  deriving DecidableEq, Repr

/-- JavaScript falsiness of the themeDescription field as tested by the
condition on App.tsx line 81: undefined or the empty string. -/
def themeUnset (p : Project) : Bool :=
  p.themeDescription.getD "" == ""

/-- The body of processQueue up to its await points (App.tsx lines 74-106),
with the asynchronous analysis completion split off into queueResolve. If
the flag is set, nothing happens. Otherwise the first PENDING file is marked
PROCESSING and the flag is set; if there is none, the drained-queue branch
runs the tough screen when at least three files are COMPLETED and no theme
is recorded. -/
def processQueue (s : QState) (oracle : Nat → Except GError OutlierResult) : QState :=
  if s.busy then s
  else
    match s.project.files.find? (fun f => f.status == AnalysisStatus.PENDING) with
    | none =>
      let processedCount :=
        (s.project.files.filter (fun f => f.status == AnalysisStatus.COMPLETED)).length
      if 3 ≤ processedCount && themeUnset s.project then
        match runToughScreen s.project oracle with
        | Except.ok p2 => { s with project := p2 }
        | Except.error _ => s
      else s
    | some f =>
      { project := updateFileStatus s.project f.id AnalysisStatus.PROCESSING none none
        busy := true
        phase := Phase.inFlight f.id }

/-- The reactive trigger as the effect actually installs it (App.tsx lines
108-110): processQueue is only called when some file has status PENDING. -/
def queueEffect (s : QState) (oracle : Nat → Except GError OutlierResult) : QState :=
  if s.project.files.any (fun f => f.status == AnalysisStatus.PENDING) then
    processQueue s oracle
  else s

/-- Completion of the in-flight analysis call (App.tsx lines 94-105): the
awaited analyzePdf outcome marks the captured file COMPLETED with its result
or ERROR with the failure message, then the finally block clears the flag. -/
def queueResolve (s : QState) (outcome : Except String DocumentAnalysis) : QState :=
  match s.phase with
  | Phase.idle => s
  | Phase.inFlight fid =>
    let p2 := match outcome with
      | Except.ok r => updateFileStatus s.project fid AnalysisStatus.COMPLETED (some r) none
      | Except.error m => updateFileStatus s.project fid AnalysisStatus.ERROR none (some m)
    { project := p2, busy := false, phase := Phase.idle }

/-- A file upload arriving in any controller state (App.tsx lines 151-171);
it only touches the project. -/
def queueUpload (s : QState) (uuid : Nat → String) (uploaded : List RawFile) : QState :=
  { s with project := handleFileUpload uuid s.project uploaded }

/-- The controller invariant: when idle no file is PROCESSING and the flag is
down; when a call is in flight the flag is up and every PROCESSING file
carries the in-flight id. -/
def queueInv (s : QState) : Prop :=
  match s.phase with
  | Phase.idle =>
    s.busy = false ∧ ∀ f ∈ s.project.files, f.status ≠ AnalysisStatus.PROCESSING
  | Phase.inFlight fid =>
    s.busy = true ∧ ∀ f ∈ s.project.files, f.status = AnalysisStatus.PROCESSING → f.id = fid

/-- The transience rule exactly as the specification words it: status or code
429, a quota or exhaustion marker in the message, or status or code 503.
Written independently of the implemented test so the two can be compared. -/
def specTransient (e : GError) : Bool :=
  e.status == some 429 || e.code == some 429 ||
    (match e.message with
     | some m => containsSub m "429" || containsSub m "quota" || containsSub m "RESOURCE_EXHAUSTED"
     | none => false) ||
    e.status == some 503 || e.code == some 503

/-- Concrete sample values used by the closed witness theorems below. -/
def e429 : GError := { status := some 429, code := none, message := none }

def e400 : GError := { status := some 400, code := none, message := none }

def code503Error : GError := { status := none, code := some 503, message := none }

def status503Error : GError := { status := some 503, code := none, message := none }

def op429 : Nat → Except GError Nat :=
  fun n => if n < 2 then Except.error e429 else Except.ok 7

def op400 : Nat → Except GError Nat := fun _ => Except.error e400

def op503code : Nat → Except GError Nat := fun _ => Except.error code503Error

def sampleCitation : CitationData :=
  { title := "T", journal := none, year := none, authors := [], ctype := "Other",
    mainTopic := "Immunology" }

def sampleAnalysis : DocumentAnalysis :=
  { title := "T", summary := "S", keyPoints := [], citationData := sampleCitation,
    thematicTags := [] }

def completedFile (n : String) : AnalyzedFile :=
  { id := n, file := { name := n, mimeType := "application/pdf" },
    status := AnalysisStatus.COMPLETED, result := some sampleAnalysis,
    thematicStatus := ThematicStatus.UNKNOWN, outlierReason := none, error := none }

def pendingFile (n : String) : AnalyzedFile :=
  { id := n, file := { name := n, mimeType := "application/pdf" },
    status := AnalysisStatus.PENDING, result := none,
    thematicStatus := ThematicStatus.UNKNOWN, outlierReason := none, error := none }

def processingFile (n : String) : AnalyzedFile :=
  { id := n, file := { name := n, mimeType := "application/pdf" },
    status := AnalysisStatus.PROCESSING, result := none,
    thematicStatus := ThematicStatus.UNKNOWN, outlierReason := none, error := none }

def outlierFile (n : String) : AnalyzedFile :=
  { id := n, file := { name := n, mimeType := "application/pdf" },
    status := AnalysisStatus.COMPLETED, result := some sampleAnalysis,
    thematicStatus := ThematicStatus.OUTLIER, outlierReason := some "off topic",
    error := none }

def themeOracle : Nat → Except GError OutlierResult :=
  fun _ => Except.ok { mainTheme := "Immunology", outliers := [] }

def resD : OutlierResult :=
  { mainTheme := "Immunology", outliers := [{ filename := "d", reason := "different field" }] }

def oracleD : Nat → Except GError OutlierResult := fun _ => Except.ok resD

def drainedProject : Project :=
  { id := "p1", nickname := "demo", createdAt := 0,
    files := [completedFile "a", completedFile "b", completedFile "c"],
    chatHistory := [], themeDescription := none }

def drainedState : QState :=
  { project := drainedProject, busy := false, phase := Phase.idle }

def pOutlierDemo : Project :=
  { id := "p2", nickname := "demo2", createdAt := 0,
    files := [completedFile "a", completedFile "b", completedFile "c", pendingFile "d"],
    chatHistory := [], themeDescription := none }

def qDemoProject : Project :=
  { id := "p3", nickname := "demo3", createdAt := 0,
    files := [processingFile "a", completedFile "b"],
    chatHistory := [], themeDescription := none }

def qDemo : QState :=
  { project := qDemoProject, busy := true, phase := Phase.inFlight "a" }

def pdfA : RawFile := { name := "a.pdf", mimeType := "application/pdf" }

def pdfB : RawFile := { name := "b.pdf", mimeType := "application/pdf" }

def txtC : RawFile := { name := "c.txt", mimeType := "text/plain" }

def emptyProject : Project :=
  { id := "p0", nickname := "empty", createdAt := 0, files := [], chatHistory := [],
    themeDescription := none }

def sampleUuid : Nat → String := fun n => toString n

def msgU : ChatMessage := { id := "u1", role := Role.user, content := "question", timestamp := 0 }

def msgA : ChatMessage := { id := "a1", role := Role.ai, content := "answer", timestamp := 1 }

def emptyReport : ReportStructure :=
  { background := "", methods := "", results := "", discussion := "", references := [] }

def reportOracle : String → Nat → Except GError ReportStructure :=
  fun _ _ => Except.ok emptyReport

def askOracle : Nat → Except GError String := fun _ => Except.ok "grounded answer"

/-- C3: with the default policy (5 retries, initial delay 2000), an operation
that fails twice with a 429-classified error and succeeds on the third
attempt returns the success value, is invoked exactly 3 times, and the waits
before the second and third invocations are 2000 and 4000 time-units. -/
theorem retry_two_quota_failures_then_success {α : Type}
    (op : Nat → Except GError α) (v : α) (e0 e1 : GError)
    (h0 : op 0 = Except.error e0) (h1 : op 1 = Except.error e1)
    (h2 : op 2 = Except.ok v)
    (t0 : isQuotaError e0 = true) (t1 : isQuotaError e1 = true) :
    retryWithBackoff op 5 2000 0 = (Except.ok v, 3, [2000, 4000]) := by
  have ht0 : isTransient e0 = true := by simp [isTransient, t0]
  have ht1 : isTransient e1 = true := by simp [isTransient, t1]
  simp [retryWithBackoff, h0, h1, h2, ht0, ht1]

/-- Witness for C3 at a concrete operation failing twice with status 429. -/
theorem retry_two_quota_failures_then_success_witness :
    retryWithBackoff op429 5 2000 0 = (Except.ok 7, 3, [2000, 4000]) :=
  retry_two_quota_failures_then_success op429 7 e429 e429 rfl rfl rfl (by decide) (by decide)

/-- C4: an operation failing with an error carrying no transient signature is
invoked exactly once and the same error propagates immediately, with no
recorded delay and no retry, whatever the retry budget and delay are. -/
theorem retry_nontransient_propagates_at_once {α : Type}
    (op : Nat → Except GError α) (e : GError) (retries delay : Nat)
    (h0 : op 0 = Except.error e) (hnt : isTransient e = false) :
    retryWithBackoff op retries delay 0 = (Except.error e, 1, []) := by
  cases retries <;> simp [retryWithBackoff, h0, hnt]

/-- Witness for C4 at a concrete operation failing with status 400 under the
default policy. -/
theorem retry_nontransient_propagates_at_once_witness :
    retryWithBackoff op400 5 2000 0 = (Except.error e400, 1, []) :=
  retry_nontransient_propagates_at_once op400 e400 5 2000 rfl (by decide)

/-- C6: with fewer than 3 input files the outlier detector returns the fixed
no-op success result and never invokes the provider. -/
theorem detectOutliers_below_threshold (files : List AnalyzedFile)
    (oracle : Nat → Except GError OutlierResult) (h : files.length < 3) :
    detectOutliers files oracle =
      (Except.ok { mainTheme := "Insufficient files for cohesion check", outliers := [] }, 0) := by
  simp [detectOutliers, h]

/-- Witness for C6 at a single-file input. -/
theorem detectOutliers_below_threshold_witness :
    detectOutliers [completedFile "a"] themeOracle =
      (Except.ok { mainTheme := "Insufficient files for cohesion check", outliers := [] }, 0) :=
  detectOutliers_below_threshold [completedFile "a"] themeOracle (by decide)

/-- C7: when no file is eligible (COMPLETED, with a result, and not an
outlier), question answering returns the fixed refusal string and performs
no provider call. -/
theorem askMike_zero_eligible_refuses (question : String)
    (files : List AnalyzedFile) (previousChat : List ChatMessage)
    (oracle : Nat → Except GError String)
    (h : ∀ f ∈ files, f.status = AnalysisStatus.COMPLETED → f.result.isSome = true →
      f.thematicStatus = ThematicStatus.OUTLIER) :
    askMike question files previousChat oracle =
      (Except.ok "I need valid, non-outlier documents to analyze before I can answer.", 0) := by
  have hf : files.filter eligibleForMike = [] := by
    rw [List.filter_eq_nil_iff]
    intro f hmem
    have hn := h f hmem
    simp only [eligibleForMike, Bool.and_eq_true, beq_iff_eq, bne_iff_ne, ne_eq, not_and,
      not_not]
    exact fun hc => hn hc.1 hc.2
  simp [askMike, hf]

/-- Witness for C7: a file list holding one completed outlier and one pending
file has no eligible file, so the concrete call refuses. -/
theorem askMike_zero_eligible_refuses_witness :
    askMike "q" [outlierFile "a", pendingFile "b"] [] askOracle =
      (Except.ok "I need valid, non-outlier documents to analyze before I can answer.", 0) :=
  askMike_zero_eligible_refuses "q" [outlierFile "a", pendingFile "b"] [] askOracle (by decide)

/-- C9: report structuring fails fast with the defined error and no provider
call on an empty history, and its outcome depends on the chat history only
through the contents of the non-user (AI) messages. -/
theorem generateReport_nonuser_only_and_empty_fails
    (oracle : String → Nat → Except GError ReportStructure) :
    generateReportStructure [] oracle =
      (Except.error { status := none, code := none, message := some "No chat history to synthesize." }, 0) ∧
    ∀ h1 h2 : List ChatMessage, h1 ≠ [] → h2 ≠ [] →
      (h1.filter (fun m => m.role != Role.user)).map (fun m => m.content) =
        (h2.filter (fun m => m.role != Role.user)).map (fun m => m.content) →
      generateReportStructure h1 oracle = generateReportStructure h2 oracle := by
  constructor
  · rfl
  · intro h1 h2 hne1 hne2 heq
    have l1 : (h1.length == 0) = false := by
      cases h1
      · simp at hne1
      · simp
    have l2 : (h2.length == 0) = false := by
      cases h2
      · simp at hne2
      · simp
    simp only [generateReportStructure, l1, l2, heq, Bool.false_eq_true, if_false]

/-- Witness for C9: a history with one user turn and one AI turn produces the
same report call as the history holding just that AI turn, and the empty
history fails with the defined error. -/
theorem generateReport_nonuser_only_and_empty_fails_witness :
    generateReportStructure [] reportOracle =
      (Except.error { status := none, code := none, message := some "No chat history to synthesize." }, 0) ∧
    generateReportStructure [msgU, msgA] reportOracle =
      generateReportStructure [msgA] reportOracle := by
  have h := generateReport_nonuser_only_and_empty_fails reportOracle
  exact ⟨h.1, h.2 [msgU, msgA] [msgA] (by simp) (by simp) (by decide)⟩

/-- Every run of the retry wrapper invokes the operation at least once. -/
theorem retry_count_pos {α : Type} (op : Nat → Except GError α) :
    ∀ retries delay attempt, 1 ≤ (retryWithBackoff op retries delay attempt).2.1 := by
  intro retries
  induction retries with
  | zero =>
    intro delay attempt
    cases hop : op attempt <;> simp [retryWithBackoff, hop]
  | succ r ih =>
    intro delay attempt
    cases hop : op attempt with
    | ok v => simp [retryWithBackoff, hop]
    | error e =>
      simp only [retryWithBackoff, hop]
      split <;> simp

/-- C5 counterexample: an error whose code field is 503 (status and message
absent) is transient under the classification the claim states, but the
implemented test rejects it, so the wrapper invokes the operation exactly
once and propagates the error instead of retrying. -/
theorem code503_claim_fails :
    specTransient code503Error = true ∧
    isTransient code503Error = false ∧
    retryWithBackoff op503code 5 2000 0 = (Except.error code503Error, 1, []) := by
  refine ⟨by decide, by decide, ?_⟩
  simp [retryWithBackoff, op503code, show isTransient code503Error = false from by decide]

/-- C5 amended: the wrapper classifies a failure as transient exactly when it
carries status or code 429, a message containing one of the markers 429,
quota, RESOURCE_EXHAUSTED or 503, or status 503 — a code field of 503 alone
is not transient — and a transient failure is retried while retries remain. -/
theorem transient_classification (e : GError) :
    (isTransient e = true ↔
      e.status = some 429 ∨ e.code = some 429 ∨
        (∃ m, e.message = some m ∧
          (containsSub m "429" = true ∨ containsSub m "quota" = true ∨
           containsSub m "RESOURCE_EXHAUSTED" = true ∨ containsSub m "503" = true)) ∨
        e.status = some 503) ∧
    ∀ (α : Type) (op : Nat → Except GError α) (r d : Nat),
      op 0 = Except.error e → isTransient e = true →
      2 ≤ (retryWithBackoff op (r + 1) d 0).2.1 := by
  constructor
  · obtain ⟨st, cd, msg⟩ := e
    cases msg <;>
      simp [isTransient, isQuotaError, isServerOverload] <;>
      tauto
  · intro α op r d hop ht
    have hrec := retry_count_pos op r (d * 2) 1
    simp [retryWithBackoff, hop, ht]
    omega

/-- Witness for the amended C5 at a concrete status-503 error and operation. -/
theorem transient_classification_witness :
    isTransient status503Error = true ∧
    2 ≤ (retryWithBackoff (fun _ => (Except.error status503Error : Except GError Nat))
      (4 + 1) 2000 0).2.1 :=
  ⟨by decide,
   (transient_classification status503Error).2 Nat
     (fun _ => Except.error status503Error) 4 2000 rfl (by decide)⟩

/-- buildUploads produces one entry per input file. -/
theorem buildUploads_length (uuid : Nat → String) :
    ∀ i l, (buildUploads uuid i l).length = l.length := by
  intro i l
  induction l generalizing i with
  | nil => simp [buildUploads]
  | cons f rest ih => simp [buildUploads, ih]

/-- Every entry produced by buildUploads is the upload record of some input
file. -/
theorem buildUploads_mem (uuid : Nat → String) :
    ∀ i l g, g ∈ buildUploads uuid i l → ∃ f ∈ l, ∃ j, g = mkUploadEntry (uuid j) f := by
  intro i l
  induction l generalizing i with
  | nil => simp [buildUploads]
  | cons f rest ih =>
    intro g hg
    simp only [buildUploads, List.mem_cons] at hg
    rcases hg with h | h
    · exact ⟨f, by simp, i, h⟩
    · obtain ⟨f2, hf2, j, hj⟩ := ih (i + 1) g h
      exact ⟨f2, by simp [hf2], j, hj⟩

/-- Every input file appears as the payload of some entry built by
buildUploads. -/
theorem buildUploads_covers (uuid : Nat → String) :
    ∀ i l f, f ∈ l → ∃ g ∈ buildUploads uuid i l, g.file = f := by
  intro i l
  induction l generalizing i with
  | nil => simp
  | cons f2 rest ih =>
    intro f hf
    rcases List.mem_cons.mp hf with h | h
    · exact ⟨mkUploadEntry (uuid i) f2, by simp [buildUploads], by simp [mkUploadEntry, h]⟩
    · obtain ⟨g, hg, hgf⟩ := ih (i + 1) f h
      exact ⟨g, by simp [buildUploads, hg], hgf⟩

/-- C8: a batch upload keeps the existing files, appends exactly one new
entry per file whose media type is PDF — created PENDING with thematic
status UNKNOWN — silently drops every non-PDF file, and resets the theme
description to undefined. -/
theorem handleFileUpload_pdf_only (uuid : Nat → String) (p : Project)
    (uploaded : List RawFile) :
    (handleFileUpload uuid p uploaded).themeDescription = none ∧
    (handleFileUpload uuid p uploaded).files.take p.files.length = p.files ∧
    (handleFileUpload uuid p uploaded).files.length =
      p.files.length + (uploaded.filter (fun f => f.mimeType == "application/pdf")).length ∧
    (∀ g ∈ (handleFileUpload uuid p uploaded).files.drop p.files.length,
      g.status = AnalysisStatus.PENDING ∧ g.thematicStatus = ThematicStatus.UNKNOWN ∧
        g.file.mimeType = "application/pdf") ∧
    ∀ f ∈ uploaded, f.mimeType = "application/pdf" →
      ∃ g ∈ (handleFileUpload uuid p uploaded).files.drop p.files.length, g.file = f := by
  refine ⟨rfl, ?_, ?_, ?_, ?_⟩
  · simp [handleFileUpload, List.take_left]
  · simp [handleFileUpload, buildUploads_length]
  · intro g hg
    simp only [handleFileUpload, List.drop_left] at hg
    obtain ⟨f, hf, j, rfl⟩ := buildUploads_mem uuid 0 _ g hg
    have hmime : f.mimeType = "application/pdf" := by
      have := (List.mem_filter.mp hf).2
      simpa using this
    simp [mkUploadEntry, hmime]
  · intro f hf hmime
    have hfl : f ∈ uploaded.filter (fun f => f.mimeType == "application/pdf") := by
      rw [List.mem_filter]
      exact ⟨hf, by simp [hmime]⟩
    obtain ⟨g, hg, hgf⟩ := buildUploads_covers uuid 0 _ f hfl
    refine ⟨g, ?_, hgf⟩
    simp [handleFileUpload, List.drop_left, hg]

/-- Witness for C8: a batch of two PDFs and one text file uploaded into an
empty project yields exactly two new PENDING entries and an unset theme. -/
theorem handleFileUpload_pdf_only_witness :
    (handleFileUpload sampleUuid emptyProject [pdfA, pdfB, txtC]).themeDescription = none ∧
    (handleFileUpload sampleUuid emptyProject [pdfA, pdfB, txtC]).files.length = 2 := by
  have h := handleFileUpload_pdf_only sampleUuid emptyProject [pdfA, pdfB, txtC]
  exact ⟨h.1, h.2.2.1.trans (by decide)⟩

/-- Stamping never changes the file payload. -/
theorem stampFile_file (os : List OutlierEntry) (f : AnalyzedFile) :
    (stampFile os f).file = f.file := by
  unfold stampFile
  cases os.find? (fun o => o.filename == f.file.name) <;> rfl

/-- Stamping never changes the processing status. -/
theorem stampFile_status (os : List OutlierEntry) (f : AnalyzedFile) :
    (stampFile os f).status = f.status := by
  unfold stampFile
  cases os.find? (fun o => o.filename == f.file.name) <;> rfl

/-- Stamping yields OUTLIER with the first matching reason, or ALIGNED. -/
theorem stampFile_thematic (os : List OutlierEntry) (f : AnalyzedFile) :
    (∃ o, os.find? (fun o2 => o2.filename == f.file.name) = some o ∧
      (stampFile os f).thematicStatus = ThematicStatus.OUTLIER ∧
      (stampFile os f).outlierReason = some o.reason) ∨
    (os.find? (fun o2 => o2.filename == f.file.name) = none ∧
      (stampFile os f).thematicStatus = ThematicStatus.ALIGNED) := by
  unfold stampFile
  cases h : os.find? (fun o2 => o2.filename == f.file.name) with
  | none => exact Or.inr ⟨rfl, rfl⟩
  | some o => exact Or.inl ⟨o, rfl, rfl, rfl⟩

/-- C10: when the detector call succeeds, runToughScreen stamps every file
of the project — whatever its processing status — OUTLIER with the reported
reason when its filename has an entry in the outlier list, ALIGNED
otherwise; no file keeps thematic status UNKNOWN, and the theme description
records the detected main theme. -/
theorem runToughScreen_stamps_every_file (p : Project)
    (oracle : Nat → Except GError OutlierResult) (res : OutlierResult) (n : Nat)
    (hdet : detectOutliers (p.files.filter (fun f => f.status == AnalysisStatus.COMPLETED)) oracle
      = (Except.ok res, n)) :
    ∃ p2, runToughScreen p oracle = Except.ok p2 ∧
      p2.themeDescription = some res.mainTheme ∧
      p2.files.length = p.files.length ∧
      (∀ g ∈ p2.files, g.thematicStatus ≠ ThematicStatus.UNKNOWN) ∧
      (∀ g ∈ p2.files,
        (∃ o, res.outliers.find? (fun o2 => o2.filename == g.file.name) = some o ∧
          g.thematicStatus = ThematicStatus.OUTLIER ∧ g.outlierReason = some o.reason) ∨
        (res.outliers.find? (fun o2 => o2.filename == g.file.name) = none ∧
          g.thematicStatus = ThematicStatus.ALIGNED)) ∧
      ∀ f ∈ p.files, ∃ g ∈ p2.files, g.file = f.file ∧ g.status = f.status := by
  have hfst : (detectOutliers
      (p.files.filter (fun f => f.status == AnalysisStatus.COMPLETED)) oracle).1
      = Except.ok res := by rw [hdet]
  have hrun : runToughScreen p oracle =
      Except.ok { p with files := p.files.map (stampFile res.outliers), themeDescription := some res.mainTheme } := by
    unfold runToughScreen
    simp only [hfst]
  refine ⟨_, hrun, rfl, ?_, ?_, ?_, ?_⟩
  · simp
  · intro g hg
    obtain ⟨f, _, rfl⟩ := List.mem_map.mp hg
    rcases stampFile_thematic res.outliers f with ⟨o, _, ho, _⟩ | ⟨_, ha⟩
    · rw [ho]; simp
    · rw [ha]; simp
  · intro g hg
    obtain ⟨f, _, rfl⟩ := List.mem_map.mp hg
    rw [stampFile_file]
    exact stampFile_thematic res.outliers f
  · intro f hf
    exact ⟨stampFile res.outliers f, List.mem_map.mpr ⟨f, hf, rfl⟩,
      stampFile_file res.outliers f, stampFile_status res.outliers f⟩

/-- Witness for C10: a project with three completed files and one still
PENDING file named d, against a detector reporting d as the only outlier;
the PENDING file is stamped too and no file stays UNKNOWN. -/
theorem runToughScreen_stamps_every_file_witness :
    ∃ p2, runToughScreen pOutlierDemo oracleD = Except.ok p2 ∧
      ∀ g ∈ p2.files, g.thematicStatus ≠ ThematicStatus.UNKNOWN := by
  obtain ⟨p2, h1, _, _, h4, _, _⟩ :=
    runToughScreen_stamps_every_file pOutlierDemo oracleD resD 1 rfl
  exact ⟨p2, h1, h4⟩

/-- C2 (divergence record): in a drained queue state with three COMPLETED
files, no PENDING file, no recorded theme and an idle flag, the trigger as
installed does nothing — the outer guard calls processQueue only when some
file is PENDING — although the drained-queue branch inside processQueue
would have run the outlier pass and recorded the detected theme. -/
theorem drained_queue_skips_outlier_pass :
    (drainedState.project.files.filter (fun f => f.status == AnalysisStatus.COMPLETED)).length = 3 ∧
    drainedState.project.files.find? (fun f => f.status == AnalysisStatus.PENDING) = none ∧
    drainedState.project.themeDescription = none ∧
    drainedState.busy = false ∧
    queueEffect drainedState themeOracle = drainedState ∧
    (processQueue drainedState themeOracle).project.themeDescription = some "Immunology" :=
  ⟨rfl, rfl, rfl, rfl, rfl, rfl⟩

/-- The reactive trigger preserves the controller invariant. -/
theorem queueInv_effect (s : QState) (oracle : Nat → Except GError OutlierResult)
    (hinv : queueInv s) : queueInv (queueEffect s oracle) := by
  obtain ⟨proj, busy, phase⟩ := s
  by_cases hany : (proj.files.any (fun f => f.status == AnalysisStatus.PENDING)) = true
  case neg =>
    unfold queueEffect
    rw [if_neg hany]
    exact hinv
  case pos =>
    unfold queueEffect
    rw [if_pos hany]
    unfold processQueue
    cases busy with
    | true => rw [if_pos rfl]; exact hinv
    | false =>
      rw [if_neg (by simp)]
      cases phase with
      | inFlight fid => exact absurd hinv.1 (by simp)
      | idle =>
        obtain ⟨-, hnop⟩ := hinv
        cases hfind : proj.files.find? (fun f => f.status == AnalysisStatus.PENDING) with
        | none =>
          exfalso
          rcases List.any_eq_true.mp hany with ⟨f, hf, hp⟩
          exact (List.find?_eq_none.mp hfind f hf) hp
        | some f =>
          refine ⟨rfl, ?_⟩
          intro g hg hgp
          simp only [updateFileStatus, List.mem_map] at hg
          obtain ⟨f0, hf0, rfl⟩ := hg
          by_cases hid : (f0.id == f.id) = true
          · rw [if_pos hid]
            simpa using hid
          · rw [if_neg hid] at hgp ⊢
            exact absurd hgp (hnop f0 hf0)

/-- Completion of the in-flight call preserves the controller invariant. -/
theorem queueInv_resolve (s : QState) (outcome : Except String DocumentAnalysis)
    (hinv : queueInv s) : queueInv (queueResolve s outcome) := by
  obtain ⟨proj, busy, phase⟩ := s
  cases phase with
  | idle => exact hinv
  | inFlight fid =>
    obtain ⟨hb, hall⟩ := hinv
    have key : ∀ (st : AnalysisStatus) (r : Option DocumentAnalysis) (er : Option String),
        st ≠ AnalysisStatus.PROCESSING →
        ∀ g ∈ (updateFileStatus proj fid st r er).files,
          g.status ≠ AnalysisStatus.PROCESSING := by
      intro st r er hst g hg
      simp only [updateFileStatus, List.mem_map] at hg
      obtain ⟨f0, hf0, rfl⟩ := hg
      by_cases hid : (f0.id == fid) = true
      · rw [if_pos hid]
        simpa using hst
      · rw [if_neg hid]
        intro hp
        exact hid (by simp [hall f0 hf0 hp])
    cases outcome with
    | ok r => exact ⟨rfl, key AnalysisStatus.COMPLETED (some r) none (by simp)⟩
    | error m => exact ⟨rfl, key AnalysisStatus.ERROR none (some m) (by simp)⟩

/-- A file upload preserves the controller invariant: the appended entries
are all PENDING. -/
theorem queueInv_upload (s : QState) (uuid : Nat → String) (uploaded : List RawFile)
    (hinv : queueInv s) : queueInv (queueUpload s uuid uploaded) := by
  obtain ⟨proj, busy, phase⟩ := s
  have hnew : ∀ g ∈ buildUploads uuid 0
      (uploaded.filter (fun f => f.mimeType == "application/pdf")),
      g.status = AnalysisStatus.PENDING := by
    intro g hg
    obtain ⟨f, _, j, rfl⟩ := buildUploads_mem uuid 0 _ g hg
    rfl
  cases phase with
  | idle =>
    obtain ⟨hb, hall⟩ := hinv
    refine ⟨hb, ?_⟩
    intro g hg
    have hg2 : g ∈ proj.files ∨ g ∈ buildUploads uuid 0
        (uploaded.filter (fun f => f.mimeType == "application/pdf")) := by
      simpa [queueUpload, handleFileUpload, List.mem_append] using hg
    rcases hg2 with h | h
    · exact hall g h
    · rw [hnew g h]
      exact by decide
  | inFlight fid =>
    obtain ⟨hb, hall⟩ := hinv
    refine ⟨hb, ?_⟩
    intro g hg hp
    have hg2 : g ∈ proj.files ∨ g ∈ buildUploads uuid 0
        (uploaded.filter (fun f => f.mimeType == "application/pdf")) := by
      simpa [queueUpload, handleFileUpload, List.mem_append] using hg
    rcases hg2 with h | h
    · exact hall g h hp
    · rw [hnew g h] at hp
      exact absurd hp (by decide)

/-- A duplicate-free list whose members are all equal has at most one
member. -/
theorem length_le_one_of_nodup_of_all_eq {l : List String} (a : String)
    (hn : l.Nodup) (ha : ∀ x ∈ l, x = a) : l.length ≤ 1 := by
  cases l with
  | nil => simp
  | cons x t =>
    cases t with
    | nil => simp
    | cons y t2 =>
      exfalso
      have hx : x = a := ha x (by simp)
      have hy : y = a := ha y (by simp)
      have hnm : x ∉ y :: t2 := (List.nodup_cons.mp hn).1
      exact hnm (by simp [hx, hy])

/-- Under the invariant, and with duplicate-free file ids, at most one file
of the project is PROCESSING. -/
theorem processing_count_le_one (s : QState) (hinv : queueInv s)
    (hn : (s.project.files.map AnalyzedFile.id).Nodup) :
    (s.project.files.filter (fun f => f.status == AnalysisStatus.PROCESSING)).length ≤ 1 := by
  obtain ⟨proj, busy, phase⟩ := s
  cases phase with
  | idle =>
    obtain ⟨-, hnop⟩ := hinv
    have hempty : proj.files.filter (fun f => f.status == AnalysisStatus.PROCESSING) = [] := by
      rw [List.filter_eq_nil_iff]
      intro f hf
      simpa using hnop f hf
    simp [hempty]
  | inFlight fid =>
    obtain ⟨-, hall⟩ := hinv
    have hsub : ((proj.files.filter (fun f => f.status == AnalysisStatus.PROCESSING)).map
        AnalyzedFile.id).Sublist (proj.files.map AnalyzedFile.id) :=
      (List.filter_sublist _).map _
    have hnd : ((proj.files.filter (fun f => f.status == AnalysisStatus.PROCESSING)).map
        AnalyzedFile.id).Nodup := hn.sublist hsub
    have hall2 : ∀ x ∈ (proj.files.filter (fun f => f.status == AnalysisStatus.PROCESSING)).map
        AnalyzedFile.id, x = fid := by
      intro x hx
      obtain ⟨f, hf, rfl⟩ := List.mem_map.mp hx
      have hmf := List.mem_filter.mp hf
      exact hall f hmf.1 (by simpa using hmf.2)
    have hlen := length_le_one_of_nodup_of_all_eq fid hnd hall2
    simpa using hlen

/-- C1: a second trigger while the isProcessingQueue flag is set is a no-op;
the controller invariant — the flag is down exactly when no analysis is in
flight, and only the in-flight file is PROCESSING — is preserved by the
trigger, by call completion and by uploads, holds in any initial state
without PROCESSING files, and bounds the number of PROCESSING files by one
whenever file ids are duplicate-free. -/
theorem queue_concurrency_at_most_one_processing (s : QState)
    (oracle : Nat → Except GError OutlierResult)
    (outcome : Except String DocumentAnalysis)
    (uuid : Nat → String) (uploaded : List RawFile)
    (hinv : queueInv s) :
    (s.busy = true → queueEffect s oracle = s) ∧
    queueInv (queueEffect s oracle) ∧
    queueInv (queueResolve s outcome) ∧
    queueInv (queueUpload s uuid uploaded) ∧
    (∀ p : Project, (∀ f ∈ p.files, f.status ≠ AnalysisStatus.PROCESSING) →
      queueInv { project := p, busy := false, phase := Phase.idle }) ∧
    ((s.project.files.map AnalyzedFile.id).Nodup →
      (s.project.files.filter (fun f => f.status == AnalysisStatus.PROCESSING)).length ≤ 1) := by
  refine ⟨?_, queueInv_effect s oracle hinv, queueInv_resolve s outcome hinv,
    queueInv_upload s uuid uploaded hinv, fun p h => ⟨rfl, h⟩,
    fun hn => processing_count_le_one s hinv hn⟩
  intro hb
  simp [queueEffect, processQueue, hb]

/-- Witness for C1 at a concrete busy state with one PROCESSING file. -/
theorem queue_concurrency_at_most_one_processing_witness :
    queueEffect qDemo themeOracle = qDemo ∧
    (qDemo.project.files.filter (fun f => f.status == AnalysisStatus.PROCESSING)).length ≤ 1 := by
  have h := queue_concurrency_at_most_one_processing qDemo themeOracle
    (Except.ok sampleAnalysis) sampleUuid [] ⟨rfl, by decide⟩
  exact ⟨h.1 rfl, h.2.2.2.2.2 (by decide)⟩

end ReadForMe
